import Mathlib

/-!
Shallow embedding of the JBmarks token-exchange relay
(`src/server-simple.js`, `POST /api/exchangetoken` handler, lines 51-175).

The handler is embedded as a pure function parameterized over
* the network (`net : OutboundRequest → TransportResult`), modelling the
  single `https.request` call together with its error-event rejection
  path, and
* the JSON parser (`parseJson : String → Except String α`), modelling
  `JSON.parse`, which either yields a value or throws an error carrying a
  message.

The function returns the HTTP response sent to the caller together with the
list of outbound requests actually issued, so that claims of the form
"the upstream is never contacted" and "at most one outbound request is
issued" are expressible.
-/

namespace Jbmarks

/-- JavaScript truthiness of a possibly-absent string field:
`undefined` and the empty string are falsy, every other string is truthy.
Mirrors the `if (!oauth_code)` style checks in the handler. -/
def truthy : Option String → Bool
  | none => false
  | some s => !s.data.isEmpty

/-- Boolean prefix test on character lists (executable model of JS
`String.prototype.startsWith` and the inner loop of `includes`). -/
def isPrefixChars : List Char → List Char → Bool
  | [], _ => true
  | _ :: _, [] => false
  | a :: as, b :: bs => a == b && isPrefixChars as bs

/-- Substring containment on character lists: `sub` occurs inside `s`. -/
def includesChars (s sub : List Char) : Bool :=
  isPrefixChars sub s ||
    match s with
    | [] => false
    | _ :: rest => includesChars rest sub

/-- JavaScript `String.prototype.includes`: substring containment,
used on line 151 to test the content type for `application/json`. -/
def strIncludes (s sub : String) : Bool :=
  includesChars s.data sub.data

/-- JavaScript `String.prototype.startsWith`, used on line 90. -/
def strStartsWith (s p : String) : Bool :=
  isPrefixChars p.data s.data

/-- JavaScript `String.prototype.toLowerCase`, used on line 130. -/
def strToLower (s : String) : String :=
  ⟨s.data.map Char.toLower⟩

/-- JavaScript `str.substring(0, n)`, used on line 156 for the body preview. -/
def strTake (s : String) (n : Nat) : String :=
  ⟨s.data.take n⟩

/-- The request body of `POST /api/exchangetoken`: the two fields
destructured from `req.body` on line 55, each possibly absent. -/
structure ReqBody where
  oauth_code : Option String
  domain : Option String
  deriving DecidableEq

/-- The three server credentials read from the environment (lines 71-73). -/
structure Env where
  BITRIX_CLIENT_ID : Option String
  BITRIX_CLIENT_SECRET : Option String
  BITRIX_REDIRECT_URI : Option String
  deriving DecidableEq

/-- The form-encoded outbound POST request built on lines 95-123. -/
structure OutboundRequest where
  url : String
  grant_type : String
  client_id : String
  client_secret : String
  code : String
  redirect_uri : String
  deriving DecidableEq

/-- The fields of the upstream reply that the handler consumes
(lines 130-140): status code, accumulated body, and the raw
`content-type` header, which may be absent. -/
structure UpstreamResponse where
  statusCode : Nat
  body : String
  contentTypeHeader : Option String
  deriving DecidableEq

/-- Outcome of the single outbound call: either a full response
(lines 126-141) or a transport-level error that rejects the promise
(lines 143-146). -/
inductive TransportResult where
  | response (r : UpstreamResponse)
  | error (message : String)
  deriving DecidableEq

/-- Body of the HTTP response the relay sends: either the parsed upstream
payload passed through verbatim (line 154), or one of the structured
error objects built by the handler. -/
inductive RelayBody (α : Type) where
  /-- Line 154: `res.status(...).json(jsonResponse)`. -/
  | payload (j : α)
  /-- Lines 58-61. -/
  | missingOauthCode
  /-- Lines 65-68. -/
  | missingDomain
  /-- Lines 77-85, carrying the three presence booleans of the `details` object. -/
  | missingEnv (has_client_id has_client_secret has_redirect_uri : Bool)
  /-- Lines 158-164, carrying `status`, `contentType` and `bodyPreview`. -/
  | bitrixReturnedHtml (status : Nat) (contentType : String) (bodyPreview : String)
  /-- Lines 170-173: the top-level catch block. -/
  | exception (message : String)
  deriving DecidableEq

/-- The `error` field of each structured error object sent by the handler;
`none` for the verbatim success payload, which has no such field. -/
def RelayBody.errorField {α : Type} : RelayBody α → Option String
  | .payload _ => none
  | .missingOauthCode => some "missing_oauth_code"
  | .missingDomain => some "missing_domain"
  | .missingEnv _ _ _ => some "missing_env"
  | .bitrixReturnedHtml _ _ _ => some "bitrix_returned_html"
  | .exception _ => some "exception"

/-- The HTTP response the relay sends: status code and JSON body. -/
structure RelayResponse (α : Type) where
  status : Nat
  body : RelayBody α
  deriving DecidableEq

/-- Endpoint selection rule, lines 90-93: `local.` client ids target the
fixed broker host, all others target the tenant domain. -/
def tokenUrl (clientId domain : String) : String :=
  if strStartsWith clientId "local." then
    "https://oauth.bitrix.info/oauth/token/"
  else
    "https://" ++ domain ++ "/oauth/token/"

/-- Lowercased declared content type with default for a missing header,
line 130, where a missing header falls back to the empty string before
lowercasing. -/
def contentTypeOf (r : UpstreamResponse) : String :=
  strToLower (r.contentTypeHeader.getD "")

/-- The classification predicate of line 151:
the lowercased declared content type contains `application/json`. -/
def isJsonResponse (r : UpstreamResponse) : Bool :=
  strIncludes (contentTypeOf r) "application/json"

/-- Response classification, lines 151-165, together with the behaviour of
a `JSON.parse` throw on line 152, which propagates to the top-level catch
block (lines 167-174) and produces a 500 `exception` response. -/
def classifyUpstream {α : Type} (parseJson : String → Except String α)
    (resp : UpstreamResponse) : RelayResponse α :=
  if strIncludes (contentTypeOf resp) "application/json" then
    match parseJson resp.body with
    | .ok j => ⟨resp.statusCode, .payload j⟩
    | .error m => ⟨500, .exception m⟩
  else
    ⟨502, .bitrixReturnedHtml resp.statusCode (contentTypeOf resp) (strTake resp.body 200)⟩

/-- The `POST /api/exchangetoken` handler, lines 51-175, as a pure function.
Returns the response sent to the caller and the list of outbound requests
issued during the call.  A transport error rejects the promise and is
handled by the top-level catch block as a 500 `exception` response. -/
def exchangeToken {α : Type} (parseJson : String → Except String α)
    (net : OutboundRequest → TransportResult)
    (reqBody : ReqBody) (env : Env) : RelayResponse α × List OutboundRequest :=
  if !truthy reqBody.oauth_code then
    (⟨400, .missingOauthCode⟩, [])
  else if !truthy reqBody.domain then
    (⟨400, .missingDomain⟩, [])
  else if !truthy env.BITRIX_CLIENT_ID || !truthy env.BITRIX_CLIENT_SECRET
      || !truthy env.BITRIX_REDIRECT_URI then
    (⟨500, .missingEnv (truthy env.BITRIX_CLIENT_ID) (truthy env.BITRIX_CLIENT_SECRET)
        (truthy env.BITRIX_REDIRECT_URI)⟩, [])
  else
    let clientId := env.BITRIX_CLIENT_ID.getD ""
    let clientSecret := env.BITRIX_CLIENT_SECRET.getD ""
    let redirectUri := env.BITRIX_REDIRECT_URI.getD ""
    let oauthCode := reqBody.oauth_code.getD ""
    let domain := reqBody.domain.getD ""
    let url := tokenUrl clientId domain
    let outReq : OutboundRequest :=
      ⟨url, "authorization_code", clientId, clientSecret, oauthCode, redirectUri⟩
    match net outReq with
    | .error msg => (⟨500, .exception msg⟩, [outReq])
    | .response resp => (classifyUpstream parseJson resp, [outReq])

/-- Concrete request body used by the evaluation witnesses. -/
def rbGood : ReqBody := ⟨some "code123", some "example.bitrix24.com"⟩

/-- Concrete credential environment used by the evaluation witnesses. -/
def envGood : Env := ⟨some "app.abc123", some "secretX", some "https://app.example.com/cb"⟩

/-- Concrete stand-in for `JSON.parse` used by the evaluation witnesses:
accepts the body `tokens`, rejects everything else. -/
def parseStub : String → Except String Unit := fun s =>
  if s = "tokens" then .ok () else .error "Unexpected token"

/-- C1: for every exchange call that passes input and credential validation,
exactly one outbound request is issued, and its URL is the fixed broker
endpoint when the configured client id starts with `local.` and
`https://<tenant_domain>/oauth/token/` otherwise. -/
theorem tokenUrl_selection {α : Type} (parseJson : String → Except String α)
    (net : OutboundRequest → TransportResult) (reqBody : ReqBody) (env : Env)
    (hoc : truthy reqBody.oauth_code = true)
    (hdom : truthy reqBody.domain = true)
    (hcid : truthy env.BITRIX_CLIENT_ID = true)
    (hcs : truthy env.BITRIX_CLIENT_SECRET = true)
    (hru : truthy env.BITRIX_REDIRECT_URI = true) :
    (strStartsWith (env.BITRIX_CLIENT_ID.getD "") "local." = true →
      (exchangeToken parseJson net reqBody env).snd.map OutboundRequest.url
        = ["https://oauth.bitrix.info/oauth/token/"])
    ∧ (strStartsWith (env.BITRIX_CLIENT_ID.getD "") "local." = false →
      (exchangeToken parseJson net reqBody env).snd.map OutboundRequest.url
        = ["https://" ++ reqBody.domain.getD "" ++ "/oauth/token/"]) := by
  constructor <;> intro hpre <;>
    simp [exchangeToken, hoc, hdom, hcid, hcs, hru, tokenUrl, hpre] <;>
    split <;> simp


/-- C1 witness: with a non-`local.` client id and the domain
`example.bitrix24.com`, the single outbound request targets
`https://example.bitrix24.com/oauth/token/`. -/
theorem tokenUrl_selection_witness :
    (strStartsWith (envGood.BITRIX_CLIENT_ID.getD "") "local." = true →
      (exchangeToken parseStub (fun _ => .error "x") rbGood envGood).snd.map OutboundRequest.url
        = ["https://oauth.bitrix.info/oauth/token/"])
    ∧ (strStartsWith (envGood.BITRIX_CLIENT_ID.getD "") "local." = false →
      (exchangeToken parseStub (fun _ => .error "x") rbGood envGood).snd.map OutboundRequest.url
        = ["https://" ++ rbGood.domain.getD "" ++ "/oauth/token/"]) :=
  tokenUrl_selection parseStub (fun _ => .error "x") rbGood envGood
    (by decide) (by decide) (by decide) (by decide) (by decide)

/-- C2: a JSON-typed upstream response whose body parses is passed through
verbatim with the upstream status code unchanged. -/
theorem json_passthrough {α : Type} (parseJson : String → Except String α)
    (reqBody : ReqBody) (env : Env) (resp : UpstreamResponse) (j : α)
    (hoc : truthy reqBody.oauth_code = true)
    (hdom : truthy reqBody.domain = true)
    (hcid : truthy env.BITRIX_CLIENT_ID = true)
    (hcs : truthy env.BITRIX_CLIENT_SECRET = true)
    (hru : truthy env.BITRIX_REDIRECT_URI = true)
    (hct : strIncludes (contentTypeOf resp) "application/json" = true)
    (hparse : parseJson resp.body = .ok j) :
    (exchangeToken parseJson (fun _ => .response resp) reqBody env).fst
      = ⟨resp.statusCode, .payload j⟩ := by
  simp [exchangeToken, classifyUpstream, hoc, hdom, hcid, hcs, hru, hct, hparse]

/-- C2 witness: a 418 JSON upstream response is passed through with
status 418 and the parsed payload. -/
theorem json_passthrough_witness :
    (exchangeToken parseStub (fun _ => .response ⟨418, "tokens", some "application/json"⟩)
      rbGood envGood).fst = ⟨418, .payload ()⟩ :=
  json_passthrough parseStub rbGood envGood ⟨418, "tokens", some "application/json"⟩ ()
    (by decide) (by decide) (by decide) (by decide) (by decide) (by decide) rfl


/-- C3 counterexample: for a declared content type `Text/HTML`, the 502
error attaches the lowercased form `text/html`, not the original declared
string. -/
theorem nonJson_contentType_counterexample :
    ((exchangeToken parseStub
        (fun _ => .response ⟨404, "<html>oops</html>", some "Text/HTML"⟩) rbGood envGood).fst
      = ⟨502, .bitrixReturnedHtml 404 "text/html" "<html>oops</html>"⟩)
    ∧ "text/html" ≠ "Text/HTML" :=
  ⟨by decide, by decide⟩

/-- C3 amended: a non-JSON upstream response yields 502
`bitrix_returned_html` for every upstream status code, attaching the
upstream status, the lowercased declared content type, and a body preview
that is a prefix of the body of at most 200 characters. -/
theorem nonJson_502 {α : Type} (parseJson : String → Except String α)
    (reqBody : ReqBody) (env : Env) (resp : UpstreamResponse)
    (hoc : truthy reqBody.oauth_code = true)
    (hdom : truthy reqBody.domain = true)
    (hcid : truthy env.BITRIX_CLIENT_ID = true)
    (hcs : truthy env.BITRIX_CLIENT_SECRET = true)
    (hru : truthy env.BITRIX_REDIRECT_URI = true)
    (hct : strIncludes (contentTypeOf resp) "application/json" = false) :
    ((exchangeToken parseJson (fun _ => .response resp) reqBody env).fst
      = ⟨502, .bitrixReturnedHtml resp.statusCode (contentTypeOf resp) (strTake resp.body 200)⟩)
    ∧ (strTake resp.body 200).data <+: resp.body.data
    ∧ (strTake resp.body 200).data.length ≤ 200 := by
  refine ⟨?_, ⟨resp.body.data.drop 200, List.take_append_drop 200 _⟩, ?_⟩
  · simp [exchangeToken, classifyUpstream, hoc, hdom, hcid, hcs, hru, hct]
  · simp [strTake]

/-- C3 amended witness: a 403 `text/html` upstream response yields the 502
error with the original status and the body preview. -/
theorem nonJson_502_witness :
    ((exchangeToken parseStub (fun _ => .response ⟨403, "forbidden page", some "text/html"⟩)
        rbGood envGood).fst
      = ⟨502, .bitrixReturnedHtml 403 "text/html" (strTake "forbidden page" 200)⟩)
    ∧ (strTake "forbidden page" 200).data <+: "forbidden page".data
    ∧ (strTake "forbidden page" 200).data.length ≤ 200 :=
  nonJson_502 parseStub rbGood envGood ⟨403, "forbidden page", some "text/html"⟩
    (by decide) (by decide) (by decide) (by decide) (by decide) (by decide)

/-- C4: a request body without `oauth_code` gets a 400 `missing_oauth_code`
response and the upstream is never contacted. -/
theorem missing_oauth_code_400 {α : Type} (parseJson : String → Except String α)
    (net : OutboundRequest → TransportResult) (domain : Option String) (env : Env) :
    exchangeToken parseJson net ⟨none, domain⟩ env
      = (⟨400, .missingOauthCode⟩, []) := by
  simp [exchangeToken, truthy]

/-- C5: a request body that supplies `oauth_code` but lacks `domain` gets a
400 `missing_domain` response and the upstream is never contacted. -/
theorem missing_domain_400 {α : Type} (parseJson : String → Except String α)
    (net : OutboundRequest → TransportResult) (oauthCode : String) (env : Env)
    (hoc : truthy (some oauthCode) = true) :
    exchangeToken parseJson net ⟨some oauthCode, none⟩ env
      = (⟨400, .missingDomain⟩, []) := by
  have h : ¬oauthCode.data = [] := by simpa [truthy] using hoc
  simp [exchangeToken, truthy, h]

/-- C5 witness: a concrete request with an oauth code but no domain gets
the 400 `missing_domain` response and an empty outbound trace. -/
theorem missing_domain_400_witness :
    exchangeToken parseStub (fun _ => .error "x") ⟨some "code123", none⟩ envGood
      = (⟨400, .missingDomain⟩, ([] : List OutboundRequest)) :=
  missing_domain_400 parseStub (fun _ => .error "x") "code123" envGood (by decide)


/-- C6: with well-formed input, any missing credential yields a 500
`missing_env` response whose details carry one presence boolean per
credential, the upstream is never contacted, and a presence boolean is
true exactly when the credential is set to a non-empty string. -/
theorem missing_env_500 {α : Type} (parseJson : String → Except String α)
    (net : OutboundRequest → TransportResult) (reqBody : ReqBody) (env : Env)
    (hoc : truthy reqBody.oauth_code = true)
    (hdom : truthy reqBody.domain = true)
    (henv : (truthy env.BITRIX_CLIENT_ID && truthy env.BITRIX_CLIENT_SECRET
        && truthy env.BITRIX_REDIRECT_URI) = false) :
    (exchangeToken parseJson net reqBody env
      = (⟨500, .missingEnv (truthy env.BITRIX_CLIENT_ID) (truthy env.BITRIX_CLIENT_SECRET)
          (truthy env.BITRIX_REDIRECT_URI)⟩, []))
    ∧ (∀ o : Option String, truthy o = true ↔ ∃ s, o = some s ∧ s ≠ "") := by
  constructor
  · rcases Bool.and_eq_false_iff.mp henv with h | h
    · rcases Bool.and_eq_false_iff.mp h with h1 | h1 <;>
        simp [exchangeToken, hoc, hdom, h1]
    · simp [exchangeToken, hoc, hdom, h]
  · intro o
    cases o with
    | none => simp [truthy]
    | some s =>
      cases s with
      | mk data =>
        cases data with
        | nil => simp [truthy, String.ext_iff]
        | cons c cs =>
          simp [truthy, String.ext_iff]
          exact ⟨⟨c :: cs⟩, rfl, by simp⟩


/-- C6 witness: with the client secret unset, a well-formed request yields
500 `missing_env` with presence booleans (true, false, true) and no
outbound call. -/
theorem missing_env_500_witness :
    (exchangeToken parseStub (fun _ => .error "x") rbGood
        ⟨some "app.abc123", none, some "https://app.example.com/cb"⟩
      = (⟨500, .missingEnv true false true⟩, ([] : List OutboundRequest)))
    ∧ (∀ o : Option String, truthy o = true ↔ ∃ s, o = some s ∧ s ≠ "") :=
  missing_env_500 parseStub (fun _ => .error "x") rbGood
    ⟨some "app.abc123", none, some "https://app.example.com/cb"⟩
    (by decide) (by decide) (by decide)

/-- C7 counterexample: a response declaring `application/json` whose body
fails to parse produces the generic catch-all response — status 500 and
error kind `exception`, the same kind a transport failure produces — not a
distinct `MalformedUpstreamJson` kind. -/
theorem malformed_json_counterexample :
    ((exchangeToken parseStub
        (fun _ => .response ⟨200, "notjson", some "application/json"⟩) rbGood envGood).fst
      = ⟨500, .exception "Unexpected token"⟩)
    ∧ ((exchangeToken parseStub
        (fun _ => .response ⟨200, "notjson", some "application/json"⟩) rbGood envGood).fst.body.errorField
      = some "exception")
    ∧ ((exchangeToken parseStub (fun _ => .error "boom") rbGood envGood).fst.body.errorField
      = some "exception") :=
  ⟨by decide, by decide, by decide⟩

/-- C7 amended: a JSON-typed upstream response whose body fails to parse
yields status 500 with the generic error kind `exception` carrying the
parse error message, via the top-level catch block. -/
theorem malformed_json_exception {α : Type} (parseJson : String → Except String α)
    (reqBody : ReqBody) (env : Env) (resp : UpstreamResponse) (m : String)
    (hoc : truthy reqBody.oauth_code = true)
    (hdom : truthy reqBody.domain = true)
    (hcid : truthy env.BITRIX_CLIENT_ID = true)
    (hcs : truthy env.BITRIX_CLIENT_SECRET = true)
    (hru : truthy env.BITRIX_REDIRECT_URI = true)
    (hct : strIncludes (contentTypeOf resp) "application/json" = true)
    (hparse : parseJson resp.body = .error m) :
    (exchangeToken parseJson (fun _ => .response resp) reqBody env).fst
      = ⟨500, .exception m⟩ := by
  simp [exchangeToken, classifyUpstream, hoc, hdom, hcid, hcs, hru, hct, hparse]

/-- C7 amended witness: the concrete parse failure yields the 500
`exception` response carrying the parse error message. -/
theorem malformed_json_exception_witness :
    (exchangeToken parseStub
        (fun _ => .response ⟨200, "still not json", some "application/json"⟩) rbGood envGood).fst
      = ⟨500, .exception "Unexpected token"⟩ :=
  malformed_json_exception parseStub rbGood envGood
    ⟨200, "still not json", some "application/json"⟩ "Unexpected token"
    (by decide) (by decide) (by decide) (by decide) (by decide) (by decide) rfl


/-- C8 counterexample: a transport-level failure produces status 500 with
the generic catch-all kind `exception` — the same kind an internal parse
defect produces — not a distinct `UpstreamUnreachable` kind. -/
theorem transport_error_counterexample :
    ((exchangeToken parseStub
        (fun _ => .error "getaddrinfo ENOTFOUND example.bitrix24.com") rbGood envGood).fst
      = ⟨500, .exception "getaddrinfo ENOTFOUND example.bitrix24.com"⟩)
    ∧ ((exchangeToken parseStub
        (fun _ => .error "getaddrinfo ENOTFOUND example.bitrix24.com")
        rbGood envGood).fst.body.errorField = some "exception")
    ∧ ((exchangeToken parseStub
        (fun _ => .response ⟨200, "parse me if you can", some "application/json"⟩)
        rbGood envGood).fst.body.errorField = some "exception") :=
  ⟨by decide, by decide, by decide⟩

/-- C8 amended: a transport-level failure of the outbound call yields
status 500 with the generic error kind `exception` carrying the underlying
error text, and every exchange call issues at most one outbound request. -/
theorem transport_error_exception {α : Type} (parseJson : String → Except String α)
    (net : OutboundRequest → TransportResult) (reqBody : ReqBody) (env : Env) (msg : String)
    (hoc : truthy reqBody.oauth_code = true)
    (hdom : truthy reqBody.domain = true)
    (hcid : truthy env.BITRIX_CLIENT_ID = true)
    (hcs : truthy env.BITRIX_CLIENT_SECRET = true)
    (hru : truthy env.BITRIX_REDIRECT_URI = true)
    (hnet : ∀ r, net r = .error msg) :
    ((exchangeToken parseJson net reqBody env).fst = ⟨500, .exception msg⟩
      ∧ (exchangeToken parseJson net reqBody env).snd.length = 1)
    ∧ (∀ (net2 : OutboundRequest → TransportResult) (rb2 : ReqBody) (env2 : Env),
        (exchangeToken parseJson net2 rb2 env2).snd.length ≤ 1) := by
  refine ⟨?_, ?_⟩
  · constructor <;> simp [exchangeToken, hoc, hdom, hcid, hcs, hru, hnet]
  · intro net2 rb2 env2
    unfold exchangeToken
    split
    · simp
    · split
      · simp
      · split
        · simp
        · dsimp only
          split <;> simp

/-- C8 amended witness: a concrete DNS failure yields the 500 `exception`
response carrying the error text, with exactly one outbound request. -/
theorem transport_error_exception_witness :
    ((exchangeToken parseStub (fun _ => .error "socket hang up") rbGood envGood).fst
        = ⟨500, .exception "socket hang up"⟩
      ∧ (exchangeToken parseStub (fun _ => .error "socket hang up") rbGood envGood).snd.length = 1)
    ∧ (∀ (net2 : OutboundRequest → TransportResult) (rb2 : ReqBody) (env2 : Env),
        (exchangeToken parseStub net2 rb2 env2).snd.length ≤ 1) :=
  transport_error_exception parseStub (fun _ => .error "socket hang up") rbGood envGood
    "socket hang up" (by decide) (by decide) (by decide) (by decide) (by decide)
    (fun _ => rfl)


/-- C9: two upstream responses that agree on status and body and whose
declared content types agree after lowercasing produce identical relay
responses. -/
theorem classification_case_insensitive {α : Type} (parseJson : String → Except String α)
    (reqBody : ReqBody) (env : Env) (r1 r2 : UpstreamResponse)
    (hstat : r1.statusCode = r2.statusCode)
    (hbody : r1.body = r2.body)
    (hct : strToLower (r1.contentTypeHeader.getD "") = strToLower (r2.contentTypeHeader.getD "")) :
    exchangeToken parseJson (fun _ => .response r1) reqBody env
      = exchangeToken parseJson (fun _ => .response r2) reqBody env := by
  have hcl : classifyUpstream parseJson r1 = classifyUpstream parseJson r2 := by
    simp only [classifyUpstream, contentTypeOf, hct, hbody, hstat, strTake]
  simp only [exchangeToken, hcl]

/-- C9 witness: `Application/JSON` and `application/json` responses with
the same status and body produce the same relay response. -/
theorem classification_case_insensitive_witness :
    exchangeToken parseStub (fun _ => .response ⟨200, "tokens", some "Application/JSON"⟩)
        rbGood envGood
      = exchangeToken parseStub (fun _ => .response ⟨200, "tokens", some "application/json"⟩)
        rbGood envGood :=
  classification_case_insensitive parseStub rbGood envGood
    ⟨200, "tokens", some "Application/JSON"⟩ ⟨200, "tokens", some "application/json"⟩
    rfl rfl (by decide)

/-- C10: the relay takes the 502 `bitrix_returned_html` path exactly when
the lowercased declared content type does not contain `application/json`;
a missing content-type header defaults to the empty string and is
classified as non-JSON; a `charset` parameter after `application/json`
still counts as JSON. -/
theorem json_classification_predicate {α : Type} (parseJson : String → Except String α)
    (reqBody : ReqBody) (env : Env) (resp : UpstreamResponse)
    (hoc : truthy reqBody.oauth_code = true)
    (hdom : truthy reqBody.domain = true)
    (hcid : truthy env.BITRIX_CLIENT_ID = true)
    (hcs : truthy env.BITRIX_CLIENT_SECRET = true)
    (hru : truthy env.BITRIX_REDIRECT_URI = true) :
    (((exchangeToken parseJson (fun _ => .response resp) reqBody env).fst.body.errorField
        = some "bitrix_returned_html")
      ↔ isJsonResponse resp = false)
    ∧ (resp.contentTypeHeader = none →
        (exchangeToken parseJson (fun _ => .response resp) reqBody env).fst
          = ⟨502, .bitrixReturnedHtml resp.statusCode "" (strTake resp.body 200)⟩)
    ∧ isJsonResponse ⟨200, "", some "application/json; charset=utf-8"⟩ = true := by
  refine ⟨?_, ?_, by decide⟩
  · cases hj : isJsonResponse resp with
    | true =>
      have hj' : strIncludes (contentTypeOf resp) "application/json" = true := hj
      cases hp : parseJson resp.body <;>
        simp [exchangeToken, classifyUpstream, hoc, hdom, hcid, hcs, hru, hj', hp,
          RelayBody.errorField]
    | false =>
      have hj' : strIncludes (contentTypeOf resp) "application/json" = false := hj
      simp [exchangeToken, classifyUpstream, hoc, hdom, hcid, hcs, hru, hj',
        RelayBody.errorField]
  · intro hnone
    have h0 : contentTypeOf resp = "" := by simp [contentTypeOf, hnone, strToLower]
    have h1 : strIncludes "" "application/json" = false := by decide
    simp [exchangeToken, classifyUpstream, hoc, hdom, hcid, hcs, hru, h0, h1]

/-- C10 witness: a response with no content-type header is classified as
non-JSON and takes the 502 `bitrix_returned_html` path. -/
theorem json_classification_predicate_witness :
    (((exchangeToken parseStub (fun _ => .response ⟨200, "tokens", none⟩) rbGood envGood).fst.body.errorField
        = some "bitrix_returned_html")
      ↔ isJsonResponse ⟨200, "tokens", none⟩ = false)
    ∧ ((⟨200, "tokens", none⟩ : UpstreamResponse).contentTypeHeader = none →
        (exchangeToken parseStub (fun _ => .response ⟨200, "tokens", none⟩) rbGood envGood).fst
          = ⟨502, .bitrixReturnedHtml 200 "" (strTake "tokens" 200)⟩)
    ∧ isJsonResponse ⟨200, "", some "application/json; charset=utf-8"⟩ = true :=
  json_classification_predicate parseStub rbGood envGood ⟨200, "tokens", none⟩
    (by decide) (by decide) (by decide) (by decide) (by decide)

end Jbmarks
